import Mathlib

/-!
Shallow embedding of the aiorest_framework core (fields, serializers,
validators, pagination) together with theorems settling the frozen claims.
Every definition is translated from the repository sources; the dynamic
values of Python are modelled by the `PyVal` universe below.
-/

namespace Aiorest

/-- Universe of Python values that the code paths of the framework touch.
`list` and `dict` are the unhashable kinds. -/
inductive PyVal where
  | none
  | bool (b : Bool)
  | int (n : Int)
  | float (q : Rat)
  | str (s : String)
  | list (l : List PyVal)
  | dict (d : List (String × PyVal))

mutual

/-- Structural equality on `PyVal` (used as the non-numeric part of
Python `==`). -/
def pyValBEq : PyVal → PyVal → Bool
  | .none, .none => true
  | .bool a, .bool b => a == b
  | .int a, .int b => a == b
  | .float a, .float b => a == b
  | .str a, .str b => a == b
  | .list a, .list b => pyValListBEq a b
  | .dict a, .dict b => pyValDictBEq a b
  | _, _ => false

/-- Elementwise structural equality on lists of `PyVal`. -/
def pyValListBEq : List PyVal → List PyVal → Bool
  | [], [] => true
  | a :: as, b :: bs => pyValBEq a b && pyValListBEq as bs
  | _, _ => false

/-- Entrywise structural equality on string-keyed mappings of `PyVal`. -/
def pyValDictBEq : List (String × PyVal) → List (String × PyVal) → Bool
  | [], [] => true
  | (ka, va) :: as, (kb, vb) :: bs => ka == kb && pyValBEq va vb && pyValDictBEq as bs
  | _, _ => false

end

/-- Numeric view: Python compares `bool`, `int` and `float` by value
(`True == 1`, `0 == 0.0`). -/
def pyNum : PyVal → Option Rat
  | .bool b => some (if b then 1 else 0)
  | .int n => some (n : Rat)
  | .float q => some q
  | _ => Option.none

/-- Python `==`.  Cross-kind numeric equality; other kinds compare
structurally (sufficient for the inputs the claims exercise). -/
def pyEq (a b : PyVal) : Bool :=
  match pyNum a, pyNum b with
  | some x, some y => x == y
  | _, _ => pyValBEq a b

/-- Python truthiness (`bool(v)`). -/
def pyTruthy : PyVal → Bool
  | .none => false
  | .bool b => b
  | .int n => n != 0
  | .float q => q != 0
  | .str s => s != ""
  | .list l => !l.isEmpty
  | .dict d => !d.isEmpty

/-- Whether `hash(v)` succeeds; `list`/`dict` raise `TypeError`. -/
def isHashable : PyVal → Bool
  | .list _ => false
  | .dict _ => false
  | _ => true

/-- Python `str(v)` for the kinds the framework stringifies. -/
def pyStr : PyVal → String
  | .none => "None"
  | .bool b => if b then "True" else "False"
  | .int n => toString n
  | .float q => toString q
  | .str s => s
  | .list _ => "[...]"
  | .dict _ => "{...}"

/-- Structured detail carried by a `ValidationError`.
Modelled from the spec: `exceptions.py` is not among the sources; the spec
says the error carries "a message, or a mapping of field→messages, or a
list of per-item details". -/
inductive Detail where
  | msg (s : String)
  | dict (d : List (String × Detail))
  | list (l : List Detail)

/-- Python truthiness of an error-detail value (`{}`/`[]`/`""` are falsy). -/
def detailTruthy : Detail → Bool
  | .msg s => s != ""
  | .dict d => !d.isEmpty
  | .list l => !l.isEmpty

/-- Exceptions crossing the embedded functions. -/
inductive PyExc where
  | validationError (detail : Detail)
  | typeError
  | assertionError (msg : String)

/-! ## BooleanField (fields.py) -/

/-- `BooleanField.TRUE_VALUES`: the strings t, T, true, True, TRUE, 1 and
the values `1`, `True`. -/
def TRUE_VALUES : List PyVal :=
  [.str "t", .str "T", .str "true", .str "True", .str "TRUE", .str "1", .int 1, .bool true]

/-- `BooleanField.FALSE_VALUES`: the strings f, F, false, False, FALSE, 0 and
the values `0`, `0.0`, `False`. -/
def FALSE_VALUES : List PyVal :=
  [.str "f", .str "F", .str "false", .str "False", .str "FALSE", .str "0",
   .int 0, .float 0, .bool false]

/-- Python `v in s` over a set of hashable constants: hashing an unhashable
`v` raises `TypeError`, otherwise membership is by `==`. -/
def pyIn (v : PyVal) (s : List PyVal) : Except Unit Bool :=
  if isHashable v then .ok (s.any (pyEq v)) else .error ()

/-- The invalid-key entry of `BooleanField.field_error_messages` (raised
unformatted via `Field.fail`, which does not call `.format`). -/
def boolInvalidMsg : String := "\"{input}\" не верное булевое значение"

/-- `BooleanField.to_internal_value` (fields.py lines 196-204): membership in
the two value sets, `TypeError` from the `in` test falls through to
failing with the invalid message. -/
def booleanToInternalValue (data : PyVal) : Except PyExc Bool :=
  match pyIn data TRUE_VALUES with
  | .error _ => .error (.validationError (.msg boolInvalidMsg))
  | .ok true => .ok true
  | .ok false =>
    match pyIn data FALSE_VALUES with
    | .error _ => .error (.validationError (.msg boolInvalidMsg))
    | .ok true => .ok false
    | .ok false => .error (.validationError (.msg boolInvalidMsg))

/-- `Field.to_python` (fields.py lines 78-79): the identity. -/
def fieldToPython (value : PyVal) : Except PyExc PyVal := .ok value

/-- `BooleanField` does not override `to_python`; it inherits the base
`Field.to_python` identity (the coercion sits in `to_internal_value`,
which `Field.run_validation` never calls). -/
def booleanFieldToPython : PyVal → Except PyExc PyVal := fieldToPython

/-! ## ChoiceField (fields.py) -/

/-- Python dict lookup `d.get(k)` on a dict built from an ordered pair list
(later duplicate keys overwrite earlier ones); `Option.none` models the
`None` returned on a miss. -/
def pyDictGet (d : List (PyVal × PyVal)) (k : PyVal) : Option PyVal :=
  (d.reverse.find? (fun p => pyEq p.1 k)).map Prod.snd

/-- Deduplication of a key sequence by Python `==`, keeping first
occurrences; `seen` accumulates the keys already emitted. -/
def pyDedupKeys : List PyVal → List PyVal → List PyVal
  | [], _ => []
  | k :: rest, seen =>
    if seen.any (pyEq k) then pyDedupKeys rest seen
    else k :: pyDedupKeys rest (k :: seen)

/-- Keys of `OrderedDict(pairs)`: first occurrence kept, by Python `==`. -/
def pyDictKeys (pairs : List (PyVal × PyVal)) : List PyVal :=
  pyDedupKeys (pairs.map Prod.fst) []

/-- The `choice_strings_to_values` mapping built by `ChoiceField.__init__`:
the string form of each choice key, mapped back to the key. -/
def choiceStringsToValues (choices : List (PyVal × PyVal)) : List (PyVal × PyVal) :=
  (pyDictKeys choices).map (fun k => (.str (pyStr k), k))

/-- Truthiness of a `d.get(k)` result: a miss yields `None` (falsy),
a hit is as truthy as the stored value. -/
def optTruthy : Option PyVal → Bool
  | Option.none => false
  | some v => pyTruthy v

/-- The invalid-choice entry of `ChoiceField.field_error_messages` after
`.format(input=data)`. -/
def choiceInvalidMsg (data : PyVal) : String :=
  String.replace "\"{input}\" неверный вариант" "{input}" (pyStr data)

/-- `ChoiceField.to_python` (fields.py lines 173-180): blank bypass, then the
`not (choice_strings_to_values.get(data) or choices.get(data))` membership
test — acceptance rides on the *truthiness* of the looked-up values.
Hashing an unhashable input in `.get` raises `TypeError`. -/
def choiceToPython (choices : List (PyVal × PyVal)) (allow_blank : Bool)
    (data : PyVal) : Except PyExc PyVal :=
  if pyEq data (.str "") && allow_blank then .ok (.str "")
  else if !isHashable data then .error .typeError
  else if !(optTruthy (pyDictGet (choiceStringsToValues choices) data)
            || optTruthy (pyDictGet choices data)) then
    .error (.validationError (.msg (choiceInvalidMsg data)))
  else .ok data

/-! ## Validators (validators.py) -/

/-- Python `a > b` restricted to the kinds the validators feed it:
numeric cross-kind comparison and string/string; anything else raises
`TypeError`. -/
def pyGt (a b : PyVal) : Except PyExc Bool :=
  match pyNum a, pyNum b with
  | some x, some y => .ok (y < x)
  | _, _ =>
    match a, b with
    | .str s, .str t => .ok (t < s)
    | _, _ => .error .typeError

/-- Python `a < b`, same domain as `pyGt`. -/
def pyLt (a b : PyVal) : Except PyExc Bool :=
  match pyNum a, pyNum b with
  | some x, some y => .ok (x < y)
  | _, _ =>
    match a, b with
    | .str s, .str t => .ok (s < t)
    | _, _ => .error .typeError

/-- Python `len(x)` for sized values; `TypeError` otherwise. -/
def pyLen (x : PyVal) : Except PyExc PyVal :=
  match x with
  | .str s => .ok (.int s.length)
  | .list l => .ok (.int l.length)
  | .dict d => .ok (.int d.length)
  | _ => .error .typeError

/-- `message.format(limit_value=self.limit_value)`. -/
def formatLimit (message : String) (limit : PyVal) : String :=
  String.replace message "{limit_value}" (pyStr limit)

/-- `BaseValidator.__call__` (validators.py lines 17-23): return silently on a
falsy value, else clean, compare, and raise `ValidationError` when the rule
is violated. -/
def baseValidatorCall (clean : PyVal → Except PyExc PyVal)
    (compare : PyVal → PyVal → Except PyExc Bool) (message : String)
    (limit : PyVal) (value : PyVal) : Except PyExc Unit :=
  if !pyTruthy value then .ok ()
  else do
    let cleaned ← clean value
    if ← compare cleaned limit then
      .error (.validationError (.msg (formatLimit message limit)))
    else .ok ()

/-- `MaxValueValidator`: `compare = a > b`, `clean` = identity. -/
def maxValueValidatorCall (limit value : PyVal) : Except PyExc Unit :=
  baseValidatorCall (fun x => .ok x) pyGt
    "убедитесь что это значение меньше или равно \"{limit_value}\"" limit value

/-- `MinValueValidator`: `compare = a < b`, `clean` = identity. -/
def minValueValidatorCall (limit value : PyVal) : Except PyExc Unit :=
  baseValidatorCall (fun x => .ok x) pyLt
    "убедитесь что это значение больше или равно \"{limit_value}\"" limit value

/-- `MaxLengthValidator`: `compare = a > b`, `clean = len`. -/
def maxLengthValidatorCall (limit value : PyVal) : Except PyExc Unit :=
  baseValidatorCall pyLen pyGt
    "убедитесь что длина строки меньше \"{limit_value}\"" limit value

/-- `MinLengthValidator`: `compare = a < b`, `clean = len`. -/
def minLengthValidatorCall (limit value : PyVal) : Except PyExc Unit :=
  baseValidatorCall pyLen pyLt
    "убедитесь что длина строки больше \"{limit_value}\"" limit value

/-! ## Field.run_validation and the serializer input pipeline
(fields.py, serializers.py) -/

/-- The required-key entry of `Field.default_error_messages`. -/
def requiredMsg : String := "обязательное поле"

/-- The per-field state and behaviour that `Field.run_validation` consults.
`hasParent` is the truthiness of `self.parent` (the parent of a bound field is a
serializer object, always truthy); `partialMode` embeds `self.partial`;
`parentInstanceAttr` abstracts `get_attribute(self.parent.instance)`. -/
structure FieldM where
  required : Bool
  hasParent : Bool
  partialMode : Bool
  toPython : PyVal → Except PyExc PyVal
  validators : List (PyVal → Except PyExc Unit)
  parentInstanceAttr : PyVal

/-- `Field.run_validators`: run each validator in order, first raise wins. -/
def runValidatorList : List (PyVal → Except PyExc Unit) → PyVal → Except PyExc Unit
  | [], _ => .ok ()
  | v :: rest, data => do
    v data
    runValidatorList rest data

/-- `Field.run_validation` (fields.py lines 64-76).  Note the guard on the
`required` failure: it also demands `not self.parent`, so a *bound* field
(whose parent is a serializer) never takes that branch. -/
def fieldRunValidation (f : FieldM) (data : PyVal) : Except PyExc PyVal :=
  if !pyTruthy data && f.required && !f.hasParent then
    .error (.validationError (.msg requiredMsg))
  else if !pyTruthy data && f.partialMode then .ok f.parentInstanceAttr
  else if !pyTruthy data && !f.required then .ok data
  else do
    let d ← f.toPython data
    runValidatorList f.validators d
    .ok d

/-- `data.get(name)` on a string-keyed Python dict; missing keys give `None`. -/
def pyStrDictGet (d : List (String × PyVal)) (k : String) : PyVal :=
  match d.reverse.find? (fun p => p.1 == k) with
  | some p => p.2
  | Option.none => .none

/-- Loop body of `BaseSerializer.run_validation` (serializers.py lines
151-168): accumulate `ret[name]` on success and `errors[name] = exc.detail`
on a caught `ValidationError`; other exceptions propagate. -/
def serializerRunValidationGo (dataDict : List (String × PyVal)) :
    List (String × FieldM) → List (String × PyVal) → List (String × Detail) →
    Except PyExc (List (String × PyVal))
  | [], ret, errs =>
    if !errs.isEmpty then .error (.validationError (.dict errs)) else .ok ret
  | (name, f) :: rest, ret, errs =>
    match fieldRunValidation f (pyStrDictGet dataDict name) with
    | .ok v => serializerRunValidationGo dataDict rest (ret ++ [(name, v)]) errs
    | .error (.validationError det) =>
      serializerRunValidationGo dataDict rest ret (errs ++ [(name, det)])
    | .error e => .error e

/-- Body of the async `BaseSerializer.run_validation`, as executed when the
coroutine is awaited.  Non-dict input is replaced by `{}` first. -/
def serializerRunValidationBody (writableFields : List (String × FieldM))
    (data : PyVal) : Except PyExc (List (String × PyVal)) :=
  let dataDict := match data with | .dict d => d | _ => []
  serializerRunValidationGo dataDict writableFields [] []

/-- A Python coroutine object: calling an `async def` function does not run
its body and cannot raise — it merely packages the suspended computation,
which only `await` would run. -/
structure Coroutine (α : Type) where
  resume : α

/-- `ListSerializer.run_validation` (serializers.py lines 232-252).  The
call `self.child.run_validation(item)` is **not awaited**: it produces a
`Coroutine` and raises nothing, so the `except ValidationError` arm is
unreachable and every iteration appends the coroutine to `ret` and `{}` to
`errors`. -/
def listRunValidationGo (childFields : List (String × FieldM)) :
    List PyVal → List (Coroutine (Except PyExc (List (String × PyVal)))) →
    List Detail →
    Except PyExc (List (Coroutine (Except PyExc (List (String × PyVal)))))
  | [], ret, errors =>
    if errors.any detailTruthy then .error (.validationError (.list errors))
    else .ok ret
  | item :: rest, ret, errors =>
    let validated := Coroutine.mk (serializerRunValidationBody childFields item)
    listRunValidationGo childFields rest (ret ++ [validated])
      (errors ++ [Detail.dict []])

/-- Entry point of `ListSerializer.run_validation`. -/
def listRunValidation (childFields : List (String × FieldM))
    (data : List PyVal) :
    Except PyExc (List (Coroutine (Except PyExc (List (String × PyVal))))) :=
  listRunValidationGo childFields data [] []

/-! ## BaseSerializer.to_representation (serializers.py lines 196-204) -/

/-- A bound field as `to_representation` sees it: its name and its
`to_representation` render step. -/
structure ReprField where
  name : String
  render : PyVal → PyVal

/-- `Field.get_attribute` (fields.py lines 47-54): mapping lookup on a dict
instance, attribute lookup with `None` default otherwise (non-dict
instances are modelled as attribute-less, yielding `None`). -/
def getAttribute (name : String) (inst : PyVal) : PyVal :=
  match inst with
  | .dict d => pyStrDictGet d name
  | _ => .none

/-- `BaseSerializer.to_representation`: for each field, fetch the attribute
and emit `attribute and await field.to_representation(attribute)` — the
Python `and` yields the attribute itself (unrendered) whenever it is falsy. -/
def serializerToRepresentation (flds : List ReprField) (inst : PyVal) :
    List (String × PyVal) :=
  flds.map (fun f =>
    let attrVal := getAttribute f.name inst
    (f.name, if pyTruthy attrVal then f.render attrVal else attrVal))

/-! ## BaseSerializer.data (serializers.py lines 112-132) -/

/-- The serializer attributes that the `data` property reads.
`validated_data` is an `Option` so that the is-None test of the guard is
expressible; `dataCache` is the `_data` attribute (absent until first
read). -/
structure SerializerState where
  initial_data : PyVal
  validated_data : Option PyVal
  errors : List (String × Detail)
  inst : Option PyVal
  dataCache : Option PyVal

/-- The state produced by `BaseSerializer.__init__`/`Field.__init__`:
`self.initial_data = initial_data or {}` and — decisively —
`self.validated_data = {}` (an empty dict, *not* `None`). -/
def serializerInitState (initial_data : Option PyVal) (inst : Option PyVal) :
    SerializerState :=
  { initial_data :=
      match initial_data with
      | some d => if pyTruthy d then d else .dict []
      | Option.none => .dict []
    validated_data := some (.dict [])
    errors := []
    inst := inst
    dataCache := Option.none }

/-- Truthiness of `self.validated_data` where `None` is falsy. -/
def optValTruthy : Option PyVal → Bool
  | Option.none => false
  | some v => pyTruthy v

/-- The assertion message in `BaseSerializer.data`. -/
def dataAssertMsg : String :=
  "When a serializer is passed a `data` keyword argument you must call `.is_valid()` before attempting to access the serialized `.data` representation.\nYou should either call `.is_valid()` first, or access `.initial_data` instead."

/-- Resolution order of `BaseSerializer.data` once past the guard: render
`instance` if present and error-free, else render truthy `validated_data`
when error-free, else fall back to `initial_data`. -/
def dataResolve (render : PyVal → PyVal) (s : SerializerState) : PyVal :=
  match s.inst with
  | some inst =>
    if s.errors.isEmpty then render inst
    else if optValTruthy s.validated_data && s.errors.isEmpty then
      render (s.validated_data.getD .none)
    else s.initial_data
  | Option.none =>
    if optValTruthy s.validated_data && s.errors.isEmpty then
      render (s.validated_data.getD .none)
    else s.initial_data

/-- The `data` property: the guard raises `AssertionError` only when
`initial_data` is truthy **and** `validated_data is None`; otherwise the
resolved value is computed once and cached in `_data`. -/
def dataProperty (render : PyVal → PyVal) (s : SerializerState) :
    Except PyExc (PyVal × SerializerState) :=
  if pyTruthy s.initial_data && s.validated_data.isNone then
    .error (.assertionError dataAssertMsg)
  else
    match s.dataCache with
    | some d => .ok (d, s)
    | Option.none =>
      let d := dataResolve render s
      .ok (d, { s with dataCache := some d })

/-! ## Field binding and declared-field sharing
(serializers.py lines 97-104, fields.py lines 59-62)

Python object identity is modelled by a heap: `_declared_fields` maps each
field name to the address of the single class-level `Field` object, and
`bind` is an in-place update of that object. -/

/-- The mutable attributes `Field.bind` writes. -/
structure FieldBindState where
  name : Option String
  parent : Option Nat
  partialMode : Bool
  deriving DecidableEq

/-- The store of `Field` objects, addressed by position. -/
abbrev FieldHeap := List FieldBindState

/-- `Field.bind(parent, name)`: sets `name`, `parent` (the serializer
instance, here its id) and copies the partial flag of the parent — an in-place
mutation of the shared object. -/
def fieldBind (h : FieldHeap) (fid : Nat) (parentId : Nat) (name : String)
    (parentPartialMode : Bool) : FieldHeap :=
  h.set fid ⟨some name, some parentId, parentPartialMode⟩

/-- `BaseSerializer.build_field`: fetch the class-level field from
`_declared_fields` and — without any copy — bind it to `self`
(`field and field.bind(self, name)` skips the bind only on a miss). -/
def buildField (declared : List (String × Nat)) (h : FieldHeap) (selfId : Nat)
    (selfPartialMode : Bool) (name : String) : Option Nat × FieldHeap :=
  match declared.lookup name with
  | some fid => (some fid, fieldBind h fid selfId name selfPartialMode)
  | Option.none => (Option.none, h)

/-- `BaseSerializer.get_fields`: build (and bind) the field for every name
in `Meta.fields`, returning the per-instance field mapping and the
updated heap. -/
def serializerGetFields (metaFields : List String)
    (declared : List (String × Nat)) (h : FieldHeap) (selfId : Nat)
    (selfPartialMode : Bool) : List (String × Option Nat) × FieldHeap :=
  match metaFields with
  | [] => ([], h)
  | name :: rest =>
    let b := buildField declared h selfId selfPartialMode name
    let r := serializerGetFields rest declared b.2 selfId selfPartialMode
    ((name, b.1) :: r.1, r.2)

/-! ## Paginator (pagination.py) -/

/-- Paginator state: the constructor (pagination.py lines 21-28) sets
`self.count = 0` and leaves both memo slots (`_num_pages`, `_count`)
unset; `count` is only overwritten inside `page()`. -/
structure Paginator (α : Type) where
  object_list : List α
  per_page : Nat
  orphans : Nat
  allow_empty_first_page : Bool
  count : Nat
  numPagesCache : Option Nat
  countCache : Option Nat
  deriving DecidableEq

/-- `Paginator.__init__`. -/
def paginatorInit (l : List α) (per_page : Nat) (orphans : Nat)
    (allow_empty_first_page : Bool) : Paginator α :=
  { object_list := l, per_page := per_page, orphans := orphans
    allow_empty_first_page := allow_empty_first_page
    count := 0, numPagesCache := Option.none, countCache := Option.none }

/-- The `num_pages` formula (pagination.py lines 94-99): `0` for an empty
collection when the empty first page is disallowed, else
`ceil(max(1, count - orphans) / per_page)` (exact ceiling division;
`per_page > 0` in every claim, Python would raise on `0`). -/
def numPagesCalc (count orphans per_page : Nat) (allow_empty_first_page : Bool) :
    Nat :=
  if count = 0 && !allow_empty_first_page then 0
  else (max 1 (count - orphans) + per_page - 1) / per_page

/-- The memoizing `num_pages` property: computed from the *current*
`self.count` on first access, cached in `_num_pages` ever after. -/
def paginatorNumPages (p : Paginator α) : Nat × Paginator α :=
  match p.numPagesCache with
  | some n => (n, p)
  | Option.none =>
    let n := numPagesCalc p.count p.orphans p.per_page p.allow_empty_first_page
    (n, { p with numPagesCache := some n })

/-- `InvalidPage` and its subkinds, with their messages. -/
inductive InvalidPage where
  | pageNotAnInteger (msg : String)
  | emptyPage (msg : String)
  deriving DecidableEq

/-- The page-number inputs `validate_number` receives: an int (internal
callers), a query-parameter string, or `None`. -/
inductive PyNum where
  | ofInt (n : Int)
  | ofStr (s : String)
  | noneV
  deriving DecidableEq

/-- Python `int(number)`: ints pass through, strings parse or raise
`ValueError`, `None` raises `TypeError`; both are caught by
`validate_number`. -/
def pyIntCoerce : PyNum → Option Int
  | .ofInt n => some n
  | .ofStr s => s.toInt?
  | .noneV => Option.none

/-- `Paginator.validate_number` (pagination.py lines 44-61). -/
def validateNumber (p : Paginator α) (number : PyNum) :
    Except InvalidPage (Int × Paginator α) :=
  match pyIntCoerce number with
  | Option.none => .error (.pageNotAnInteger "That page number is not an integer")
  | some n =>
    if n < 1 then .error (.emptyPage "That page number is less than 1")
    else if n > ((paginatorNumPages p).1 : Int) then
      if n = 1 && p.allow_empty_first_page then .ok (n, (paginatorNumPages p).2)
      else .error (.emptyPage "That page contains no results")
    else .ok (n, (paginatorNumPages p).2)

/-- `Paginator.get_count` memoization: a plain list has no zero-argument
`count()` (the `TypeError` is caught), so the fallback `len(object_list)`
is what runs. -/
def paginatorGetCount (p : Paginator α) : Nat × Paginator α :=
  match p.countCache with
  | some c => (c, p)
  | Option.none => (p.object_list.length, { p with countCache := some p.object_list.length })

/-- Python slice `l[bottom:top]`. -/
def pySlice (l : List α) (bottom top : Nat) : List α :=
  (l.take top).drop bottom

/-- One result page: the slice and its 1-based number. -/
structure PageM (α : Type) where
  object_list : List α
  number : Int
  deriving DecidableEq

/-- `Paginator.page` (pagination.py lines 30-42): set `self.count`, validate
the number, then slice with `bottom = (number-1)*per_page`,
`top = bottom+per_page`, clamping `top` to `count` when
`top + orphans >= count`. -/
def paginatorPage (p : Paginator α) (number : PyNum) :
    Except InvalidPage (PageM α × Paginator α) :=
  let cc := paginatorGetCount p
  let p1 := { cc.2 with count := cc.1 }
  match validateNumber p1 number with
  | .error e => .error e
  | .ok np =>
    let n := np.1
    let p2 := np.2
    let bottom := ((n - 1) * (p2.per_page : Int)).toNat
    let top0 := bottom + p2.per_page
    let top := if p2.count ≤ top0 + p2.orphans then p2.count else top0
    .ok (⟨pySlice p2.object_list bottom top, n⟩, p2)

/-! ## PageNumberPagination (pagination.py lines 177-265) -/

/-- `PageNumberPagination.last_page_strings`, the one-element tuple holding
the string last. -/
def lastPageStrings : List String := ["last"]

/-- Rendering of the resolved page number for the `NotFound` message. -/
def pyNumStr : PyNum → String
  | .ofInt n => toString n
  | .ofStr s => s
  | .noneV => "None"

/-- `invalid_page_message.format(page_number=..., message=...)`. -/
def notFoundMsg (page_number : PyNum) (e : InvalidPage) : String :=
  let m := match e with | .pageNotAnInteger m => m | .emptyPage m => m
  String.replace
    (String.replace "Invalid page \"{page_number}\": {message}." "{page_number}"
      (pyNumStr page_number))
    "{message}" m

/-- `PageNumberPagination.paginate_object_list` (pagination.py lines
206-229) with the default configuration (`page_query_param` = page,
`page_size_query_param=None`, `orphans=0`, `allow_empty_first_page=True`).
`page_size` is the configured `PAGE_SIZE` (`None`/`0` disables pagination);
`pageParam` is the page query parameter, defaulting to `1`.  The sentinel test
`page_number in self.last_page_strings` reads — and thereby memoizes —
`paginator.num_pages` **before** `paginator.page()` has set the real
count. -/
def paginateObjectList (page_size : Option Nat) (object_list : List α)
    (pageParam : Option String) : Except String (Option (List α)) :=
  match page_size with
  | Option.none => .ok Option.none
  | some ps =>
    if ps = 0 then .ok Option.none
    else
      let paginator := paginatorInit object_list ps 0 true
      let pn : PyNum := match pageParam with
        | some s => .ofStr s
        | Option.none => .ofInt 1
      let resolved : PyNum × Paginator α :=
        match pn with
        | .ofStr s =>
          if lastPageStrings.contains s then
            let np := paginatorNumPages paginator
            (.ofInt (np.1 : Int), np.2)
          else (pn, paginator)
        | _ => (pn, paginator)
      match paginatorPage resolved.2 resolved.1 with
      | .error e => .error (notFoundMsg resolved.1 e)
      | .ok pg => .ok (some pg.1.object_list)


/-! ## Theorems settling the claims -/

/-- C1: the claim says `BooleanField.to_python` coerces via the membership
sets.  In the code, `BooleanField` never overrides `to_python` — the
inherited identity returns the input unchanged (e.g. the *string* `"True"`,
not the boolean) — while the membership-set coercion lives in
`to_internal_value`, a method `run_validation` never calls.  This theorem
evaluates both: `to_python` at the failing inputs, and `to_internal_value`
on the full truth table of the claim (with unhashable inputs failing with
`invalid`). -/
theorem booleanField_coercion_unwired :
    (∀ v : PyVal, booleanFieldToPython v = .ok v)
    ∧ booleanFieldToPython (.str "True") = .ok (.str "True")
    ∧ booleanFieldToPython (.str "False") = .ok (.str "False")
    ∧ booleanToInternalValue (.str "True") = .ok true
    ∧ booleanToInternalValue (.str "true") = .ok true
    ∧ booleanToInternalValue (.str "1") = .ok true
    ∧ booleanToInternalValue (.int 1) = .ok true
    ∧ booleanToInternalValue (.bool true) = .ok true
    ∧ booleanToInternalValue (.str "False") = .ok false
    ∧ booleanToInternalValue (.str "false") = .ok false
    ∧ booleanToInternalValue (.str "0") = .ok false
    ∧ booleanToInternalValue (.int 0) = .ok false
    ∧ booleanToInternalValue (.bool false) = .ok false
    ∧ booleanToInternalValue (.list [.int 1])
        = .error (.validationError (.msg boolInvalidMsg))
    ∧ booleanToInternalValue (.dict [("a", .int 1)])
        = .error (.validationError (.msg boolInvalidMsg)) :=
  ⟨fun _ => rfl, rfl, rfl, rfl, rfl, rfl, rfl, rfl, rfl, rfl, rfl, rfl, rfl,
   rfl, rfl⟩

/-- C2: the claim says a `page=last` request returns the final page.  In the
code, `paginate_object_list` reads `paginator.num_pages` *before*
`paginator.page()` has set `self.count` (the constructor leaves it `0`), so
`num_pages` computes from `count = 0`, yields `1`, is memoized, and the
request resolves to page 1.  Evaluated here on 25 items with page size 10:
the call returns the first ten items, although the true page
count is 3 and the true final page is the last five items. -/
theorem lastPage_sentinel_first_page :
    paginateObjectList (some 10) (List.range 25) (some "last")
      = .ok (some (List.range 10))
    ∧ numPagesCalc 25 0 10 true = 3
    ∧ paginatorPage (paginatorInit (List.range 25) 10 0 true) (.ofInt 3)
        = .ok (⟨(List.range 25).drop 20, 3⟩,
          { object_list := List.range 25, per_page := 10, orphans := 0,
            allow_empty_first_page := true, count := 25,
            numPagesCache := some 3, countCache := some 25 }) :=
  ⟨by rfl, rfl, by rfl⟩

/-- C3: the claim says reading `data` before `is_valid` fails with an
assertion-style error.  In the code, the guard tests
`self.validated_data is None`, but `Field.__init__` sets
`self.validated_data = {}` — never `None` — so the guard is dead: with
truthy `initial_data`, no instance and `is_valid` not yet run, `data`
silently returns the raw `initial_data` instead of raising. -/
theorem data_guard_never_fires :
    (∀ (i o : Option PyVal), (serializerInitState i o).validated_data
        = some (.dict []))
    ∧ dataProperty (fun v => v)
        (serializerInitState (some (.dict [("x", .int 1)])) Option.none)
      = .ok (.dict [("x", .int 1)],
          { serializerInitState (some (.dict [("x", .int 1)])) Option.none with
              dataCache := some (.dict [("x", .int 1)]) }) :=
  ⟨fun _ _ => rfl, rfl⟩

/-- C4 counterexample: the claim says binding the fields of one schema
instance never mutates state observable through another.  False: with one
declared field (heap address 0) shared by the class, constructing instance 1
(not partial) and then instance 2 (partial) leaves the *same* shared field
object — referenced by the field mappings of both instances — rebound to
instance 2, so instance 1 observes `parent = 2, partial = true`. -/
theorem field_sharing_counterexample :
    (serializerGetFields ["x"] [("x", 0)] [⟨Option.none, Option.none, false⟩]
        1 false).1 = [("x", some 0)]
    ∧ (serializerGetFields ["x"] [("x", 0)] [⟨Option.none, Option.none, false⟩]
        1 false).2 = [⟨some "x", some 1, false⟩]
    ∧ (serializerGetFields ["x"] [("x", 0)] [⟨some "x", some 1, false⟩]
        2 true).1 = [("x", some 0)]
    ∧ (serializerGetFields ["x"] [("x", 0)] [⟨some "x", some 1, false⟩]
        2 true).2 = [⟨some "x", some 2, true⟩]
    ∧ ([⟨some "x", some 2, true⟩] : FieldHeap) ≠ [⟨some "x", some 1, false⟩] := by
  refine ⟨rfl, rfl, rfl, rfl, ?_⟩
  decide

/-- C4 amended: `_declared_fields` holds the single class-level `Field`
object per name and `build_field` returns it without any copy, so every
instance of the schema class binds the *same* object; `bind` mutates it in
place and the last bind wins — after instances `a` then `b` build the same
declared field, the shared object (observable through both) carries
the binding of instance `b`. -/
theorem declared_fields_shared_bind :
    ∀ (declared : List (String × Nat)) (h : FieldHeap) (a b : Nat)
      (pa pb : Bool) (name : String) (fid : Nat),
      declared.lookup name = some fid → fid < h.length →
      ((buildField declared h a pa name).1 = some fid
       ∧ (buildField declared (buildField declared h a pa name).2 b pb name).1
           = some fid
       ∧ ((buildField declared (buildField declared h a pa name).2 b pb name).2).get? fid
           = some ⟨some name, some b, pb⟩) := by
  intro declared h a b pa pb name fid hlook hlt
  simp only [buildField, hlook, fieldBind]
  refine ⟨trivial, trivial, ?_⟩
  rw [List.get?_set_eq_of_lt]
  simpa using hlt

/-- Witness for the amended C4 theorem at the concrete shared-field heap. -/
theorem declared_fields_shared_bind_witness :
    (buildField [("x", 0)] [⟨Option.none, Option.none, false⟩] 1 false "x").1
        = some 0
    ∧ (buildField [("x", 0)]
        (buildField [("x", 0)] [⟨Option.none, Option.none, false⟩] 1 false "x").2
        2 true "x").1 = some 0
    ∧ ((buildField [("x", 0)]
        (buildField [("x", 0)] [⟨Option.none, Option.none, false⟩] 1 false "x").2
        2 true "x").2).get? 0 = some ⟨some "x", some 2, true⟩ :=
  declared_fields_shared_bind [("x", 0)] [⟨Option.none, Option.none, false⟩]
    1 2 false true "x" 0 rfl (by decide)


/-- Helper: with an error accumulator containing only falsy details, the
loop of `ListSerializer.run_validation` always succeeds, returning the
accumulated coroutines — the un-awaited child call can raise nothing. -/
theorem listRunValidationGo_ok (cf : List (String × FieldM)) :
    ∀ (data : List PyVal) (ret : List (Coroutine (Except PyExc (List (String × PyVal)))))
      (errors : List Detail), errors.any detailTruthy = false →
      listRunValidationGo cf data ret errors
        = .ok (ret ++ data.map (fun item => ⟨serializerRunValidationBody cf item⟩)) := by
  intro data
  induction data with
  | nil =>
    intro ret errors h
    simp [listRunValidationGo, h]
  | cons item rest ih =>
    intro ret errors h
    rw [listRunValidationGo, ih]
    · simp
    · simp [h, detailTruthy]

/-- C5: the claim says `ListSchema.run_validation` collects one error detail
per item and raises with the ordered per-item list when any is non-empty.
In the code, `self.child.run_validation(item)` is called **without await**:
the async call builds a coroutine object and cannot raise, so the except
arm is dead, every per-item placeholder stays `{}`, and `run_validation`
returns the list of un-awaited coroutines for *every* input — it never
raises.  Moreover, even the awaited child body yields no error on the
input `{}` of the concrete scenario, because the required check in
`Field.run_validation` also demands `not self.parent` and a bound field
has a (truthy) parent. -/
theorem listRunValidation_never_raises :
    (∀ (cf : List (String × FieldM)) (data : List PyVal),
      listRunValidation cf data
        = .ok (data.map (fun item => ⟨serializerRunValidationBody cf item⟩)))
    ∧ serializerRunValidationBody
        [("x", ⟨true, true, false, fieldToPython, [], .none⟩)] (.dict [])
        = .ok [("x", .none)]
    ∧ listRunValidation [("x", ⟨true, true, false, fieldToPython, [], .none⟩)]
        [.dict [("x", .int 1)], .dict []]
        = .ok [⟨serializerRunValidationBody
                  [("x", ⟨true, true, false, fieldToPython, [], .none⟩)]
                  (.dict [("x", .int 1)])⟩,
               ⟨serializerRunValidationBody
                  [("x", ⟨true, true, false, fieldToPython, [], .none⟩)]
                  (.dict [])⟩]
    ∧ fieldRunValidation ⟨true, false, false, fieldToPython, [], .none⟩ .none
        = .error (.validationError (.msg requiredMsg)) := by
  refine ⟨fun cf data => ?_, rfl, rfl, rfl⟩
  have h := listRunValidationGo_ok cf data [] [] rfl
  simpa [listRunValidation] using h

/-- Helper: `pyGt` either succeeds or raises `TypeError` — it never raises a
`ValidationError` of its own. -/
theorem pyGt_shape (a b : PyVal) :
    (∃ r, pyGt a b = .ok r) ∨ pyGt a b = .error .typeError := by
  cases a <;> cases b <;> simp [pyGt, pyNum]

/-- Helper: `pyLt` either succeeds or raises `TypeError`. -/
theorem pyLt_shape (a b : PyVal) :
    (∃ r, pyLt a b = .ok r) ∨ pyLt a b = .error .typeError := by
  cases a <;> cases b <;> simp [pyLt, pyNum]

/-- Helper: `pyLen` either succeeds or raises `TypeError`. -/
theorem pyLen_shape (a : PyVal) :
    (∃ r, pyLen a = .ok r) ∨ pyLen a = .error .typeError := by
  cases a <;> simp [pyLen]

/-- Helper: the identity `clean` of the value validators always succeeds. -/
theorem cleanId_shape (a : PyVal) :
    (∃ r, (fun x => (.ok x : Except PyExc PyVal)) a = .ok r)
    ∨ (fun x => (.ok x : Except PyExc PyVal)) a = .error .typeError := by
  exact Or.inl ⟨a, rfl⟩

/-- Helper: behaviour of `BaseValidator.__call__` for any `clean`/`compare`
pair that never raises a `ValidationError` itself: silent on falsy values,
and a `ValidationError` exactly when the value is truthy and the violation
predicate evaluates to true. -/
theorem baseValidatorCall_spec
    (clean : PyVal → Except PyExc PyVal)
    (compare : PyVal → PyVal → Except PyExc Bool)
    (msg : String) (limit value : PyVal)
    (hclean : ∀ v, (∃ r, clean v = .ok r) ∨ clean v = .error .typeError)
    (hcomp : ∀ a b, (∃ r, compare a b = .ok r) ∨ compare a b = .error .typeError) :
    (pyTruthy value = false →
      baseValidatorCall clean compare msg limit value = .ok ())
    ∧ ((∃ d, baseValidatorCall clean compare msg limit value
          = .error (.validationError d))
        ↔ (pyTruthy value = true
            ∧ (clean value >>= fun c => compare c limit) = .ok true)) := by
  constructor
  · intro h
    simp [baseValidatorCall, h]
  · by_cases h : pyTruthy value
    · rcases hclean value with ⟨c, hc⟩ | hc
      · rcases hcomp c limit with ⟨r, hr⟩ | hr
        · cases r <;>
            simp [baseValidatorCall, h, hc, hr, Bind.bind, Except.bind]
        · simp [baseValidatorCall, h, hc, hr, Bind.bind, Except.bind]
      · simp [baseValidatorCall, h, hc, Bind.bind, Except.bind]
    · simp only [Bool.not_eq_true] at h
      simp [baseValidatorCall, h]

/-- C9: every rule validator (MaxValue, MinValue, MaxLength, MinLength)
returns silently on any falsy value (empty string, None, zero, empty
collection), and raises a `ValidationError` exactly when the value is
truthy and `compare(clean(value), limit_value)` evaluates to true. -/
theorem validators_exempt_falsy :
    ∀ (limit value : PyVal),
      (pyTruthy value = false →
        maxValueValidatorCall limit value = .ok ()
        ∧ minValueValidatorCall limit value = .ok ()
        ∧ maxLengthValidatorCall limit value = .ok ()
        ∧ minLengthValidatorCall limit value = .ok ())
      ∧ ((∃ d, maxValueValidatorCall limit value
            = .error (.validationError d))
          ↔ (pyTruthy value = true ∧ pyGt value limit = .ok true))
      ∧ ((∃ d, minValueValidatorCall limit value
            = .error (.validationError d))
          ↔ (pyTruthy value = true ∧ pyLt value limit = .ok true))
      ∧ ((∃ d, maxLengthValidatorCall limit value
            = .error (.validationError d))
          ↔ (pyTruthy value = true
              ∧ (pyLen value >>= fun c => pyGt c limit) = .ok true))
      ∧ ((∃ d, minLengthValidatorCall limit value
            = .error (.validationError d))
          ↔ (pyTruthy value = true
              ∧ (pyLen value >>= fun c => pyLt c limit) = .ok true)) := by
  intro limit value
  have h1 := baseValidatorCall_spec (fun x => .ok x) pyGt
    "убедитесь что это значение меньше или равно \"{limit_value}\"" limit value
    cleanId_shape pyGt_shape
  have h2 := baseValidatorCall_spec (fun x => .ok x) pyLt
    "убедитесь что это значение больше или равно \"{limit_value}\"" limit value
    cleanId_shape pyLt_shape
  have h3 := baseValidatorCall_spec pyLen pyGt
    "убедитесь что длина строки меньше \"{limit_value}\"" limit value
    pyLen_shape pyGt_shape
  have h4 := baseValidatorCall_spec pyLen pyLt
    "убедитесь что длина строки больше \"{limit_value}\"" limit value
    pyLen_shape pyLt_shape
  refine ⟨fun hf => ⟨h1.1 hf, h2.1 hf, h3.1 hf, h4.1 hf⟩, ?_, ?_, ?_, ?_⟩
  · simpa [maxValueValidatorCall, Bind.bind, Except.bind] using h1.2
  · simpa [minValueValidatorCall, Bind.bind, Except.bind] using h2.2
  · simpa [maxLengthValidatorCall, Bind.bind, Except.bind] using h3.2
  · simpa [minLengthValidatorCall, Bind.bind, Except.bind] using h4.2

/-- Witness for C9 at concrete inputs: the falsy value `""` passes all four
validators unchecked. -/
theorem validators_exempt_falsy_witness :
    maxValueValidatorCall (.int 5) (.str "") = .ok ()
    ∧ minValueValidatorCall (.int 5) (.str "") = .ok ()
    ∧ maxLengthValidatorCall (.int 5) (.str "") = .ok ()
    ∧ minLengthValidatorCall (.int 5) (.str "") = .ok () :=
  (validators_exempt_falsy (.int 5) (.str "")).1 rfl

/-- C10: `ChoiceField.to_python` accepts a (non-blank, hashable) input iff
the string-alias lookup or the choices lookup returns a *truthy* value; as
a consequence an input that is a declared choice but whose lookup lands on
a falsy value is rejected with invalid_choice — evaluated concretely for
the string form of a choice value `0` (the alias map yields `0`, falsy)
and for a native value whose label is the empty string. -/
theorem choice_membership_truthiness :
    (∀ (choices : List (PyVal × PyVal)) (ab : Bool) (data : PyVal),
      isHashable data = true →
      ¬(pyEq data (.str "") = true ∧ ab = true) →
      (choiceToPython choices ab data = .ok data
        ↔ (optTruthy (pyDictGet (choiceStringsToValues choices) data)
            || optTruthy (pyDictGet choices data)) = true))
    ∧ pyDictGet (choiceStringsToValues [(.int 0, .str "zero")]) (.str "0")
        = some (.int 0)
    ∧ choiceToPython [(.int 0, .str "zero")] false (.str "0")
        = .error (.validationError (.msg (choiceInvalidMsg (.str "0"))))
    ∧ pyDictGet [(.int 0, .str "")] (.int 0) = some (.str "")
    ∧ choiceToPython [(.int 0, .str "")] false (.int 0)
        = .error (.validationError (.msg (choiceInvalidMsg (.int 0)))) := by
  refine ⟨?_, rfl, rfl, rfl, rfl⟩
  intro choices ab data hhash hblank
  have hb : (pyEq data (.str "") && ab) = false := by
    cases hpe : pyEq data (.str "") <;> cases hab : ab <;> simp_all
  by_cases hl : (optTruthy (pyDictGet (choiceStringsToValues choices) data)
      || optTruthy (pyDictGet choices data)) = true
  · simp [choiceToPython, hb, hhash, hl]
  · simp only [Bool.not_eq_true] at hl
    simp [choiceToPython, hb, hhash, hl]

/-- Witness for C10 at a concrete choice set: input `1` over choices
`[(1, "one")]` is accepted iff its lookup is truthy (and it is). -/
theorem choice_membership_truthiness_witness :
    (choiceToPython [(.int 1, .str "one")] false (.int 1) = .ok (.int 1)
      ↔ (optTruthy (pyDictGet (choiceStringsToValues [(.int 1, .str "one")]) (.int 1))
          || optTruthy (pyDictGet [(.int 1, .str "one")] (.int 1))) = true)
    ∧ choiceToPython [(.int 1, .str "one")] false (.int 1) = .ok (.int 1) := by
  constructor
  · exact choice_membership_truthiness.1 [(.int 1, .str "one")] false (.int 1)
      rfl (by simp [pyEq, pyNum, pyValBEq])
  · rfl


/-- C8: `Schema.to_representation` fetches each field attribute from the
instance; a falsy fetched attribute (`0`, `""`, `None`, `False`) is emitted
verbatim — and the output is the same under *any* replacement of that
render step, i.e. the render step is not consulted — while a truthy
attribute passes through the render step. -/
theorem toRepresentation_falsy_short_circuit :
    ∀ (flds : List ReprField) (inst : PyVal) (i : Nat) (f : ReprField),
      flds.get? i = some f →
      ((pyTruthy (getAttribute f.name inst) = false →
        (serializerToRepresentation flds inst).get? i
            = some (f.name, getAttribute f.name inst)
        ∧ ∀ g : PyVal → PyVal,
            (serializerToRepresentation (flds.set i ⟨f.name, g⟩) inst).get? i
              = some (f.name, getAttribute f.name inst))
      ∧ (pyTruthy (getAttribute f.name inst) = true →
          (serializerToRepresentation flds inst).get? i
            = some (f.name, f.render (getAttribute f.name inst)))) := by
  intro flds inst i f hf
  have hlt : i < flds.length := by
    rcases List.get?_eq_some.mp hf with ⟨h, _⟩
    exact h
  have hf2 : flds[i]? = some f := by
    rw [← List.get?_eq_getElem?]
    exact hf
  refine ⟨fun hfalsy => ⟨?_, fun g => ?_⟩, fun htruthy => ?_⟩
  · simp [serializerToRepresentation, List.get?_eq_getElem?, hf2, hfalsy]
  · have hset : (flds.set i (⟨f.name, g⟩ : ReprField))[i]? = some ⟨f.name, g⟩ :=
      List.getElem?_set_eq_of_lt _ hlt
    simp only [serializerToRepresentation, List.get?_eq_getElem?, List.map_set,
      hfalsy, Bool.false_eq_true, if_false]
    exact List.getElem?_set_eq_of_lt _ (by simpa using hlt)
  · simp [serializerToRepresentation, List.get?_eq_getElem?, hf2, htruthy]

/-- Witness for C8: a field whose attribute is the falsy `0` is emitted as
`0` even under a renderer that would map it to the string ZERO. -/
theorem toRepresentation_falsy_short_circuit_witness :
    (serializerToRepresentation [⟨"a", fun _ => .str "ZERO"⟩]
        (.dict [("a", .int 0)])).get? 0 = some ("a", .int 0)
    ∧ ∀ g : PyVal → PyVal,
        (serializerToRepresentation ([⟨"a", fun _ => .str "ZERO"⟩].set 0 ⟨"a", g⟩)
            (.dict [("a", .int 0)])).get? 0 = some ("a", .int 0) :=
  (toRepresentation_falsy_short_circuit [⟨"a", fun _ => .str "ZERO"⟩]
      (.dict [("a", .int 0)]) 0 ⟨"a", fun _ => .str "ZERO"⟩ rfl).1 rfl


/-- Helper: a successful `validate_number` returns the coerced input number
unchanged, together with the paginator state after the `num_pages`
memoization. -/
theorem validateNumber_ok_eq {α : Type} (p : Paginator α) (num : PyNum)
    (np : Int × Paginator α) (h : validateNumber p num = .ok np) :
    pyIntCoerce num = some np.1 ∧ np.2 = (paginatorNumPages p).2 := by
  unfold validateNumber at h
  split at h
  · cases h
  · rename_i m heq
    split at h
    · cases h
    · split at h
      · split at h
        · cases h
          exact ⟨heq, rfl⟩
        · cases h
      · cases h
        exact ⟨heq, rfl⟩

/-- C6: `Paginator.page` slices from `bottom = (number-1)*per_page` to
`top = bottom+per_page`, clamping `top` to `count` whenever
`top + orphans >= count`; `num_pages` is `0` for an empty collection with
the empty first page disallowed and otherwise the ceiling of
`max(1, count - orphans) / per_page`; concretely, with 23 items,
`per_page = 10` and `orphans = 5`, page 2 covers indices 10..23 (13 items)
and `num_pages = 2`. -/
theorem paginator_page_bounds :
    (∀ (l : List Nat) (pp orph : Nat) (allow : Bool) (n : Int)
       (pg : PageM Nat) (p' : Paginator Nat), 0 < pp →
       paginatorPage (paginatorInit l pp orph allow) (.ofInt n) = .ok (pg, p') →
       pg.number = n ∧
       pg.object_list =
         pySlice l (((n - 1) * (pp : Int)).toNat)
           (if l.length ≤ ((n - 1) * (pp : Int)).toNat + pp + orph then l.length
            else ((n - 1) * (pp : Int)).toNat + pp))
    ∧ (∀ (count orph pp : Nat) (allow : Bool), 0 < pp →
        numPagesCalc count orph pp allow
          = if count = 0 ∧ allow = false then 0 else max 1 (count - orph) ⌈/⌉ pp)
    ∧ paginatorPage (paginatorInit (List.range 23) 10 5 true) (.ofInt 2)
        = .ok (⟨(List.range 23).drop 10, 2⟩,
          { object_list := List.range 23, per_page := 10, orphans := 5,
            allow_empty_first_page := true, count := 23,
            numPagesCache := some 2, countCache := some 23 })
    ∧ ((List.range 23).drop 10).length = 13
    ∧ numPagesCalc 23 5 10 true = 2 := by
  refine ⟨?_, ?_, by rfl, by rfl, rfl⟩
  · intro l pp orph allow n pg p' hpp hok
    unfold paginatorPage at hok
    simp only [paginatorGetCount, paginatorInit] at hok
    split at hok
    · cases hok
    · rename_i np hv
      have hnp := validateNumber_ok_eq _ _ _ hv
      obtain ⟨m, q⟩ := np
      have hn : m = n := by
        have h1 := hnp.1
        simp only [pyIntCoerce, Option.some.injEq] at h1
        exact h1.symm
      subst hn
      have hq : q = (paginatorNumPages
          { object_list := l, per_page := pp, orphans := orph,
            allow_empty_first_page := allow, count := l.length,
            numPagesCache := Option.none, countCache := some l.length }).2 := hnp.2
      simp only [paginatorNumPages] at hq
      subst hq
      simp only [Except.ok.injEq, Prod.mk.injEq] at hok
      obtain ⟨hpg, _⟩ := hok
      subst hpg
      constructor
      · rfl
      · rfl
  · intro c o p a hp
    cases a <;> by_cases hc : c = 0 <;>
      simp [hc, numPagesCalc, Nat.ceilDiv_eq_add_pred_div]

/-- Witness for C6 at the concrete 23-item scenario: applying the general
slice-bounds statement at page 2 with `per_page = 10`, `orphans = 5`. -/
theorem paginator_page_bounds_witness :
    (⟨(List.range 23).drop 10, 2⟩ : PageM Nat).number = 2
    ∧ (⟨(List.range 23).drop 10, 2⟩ : PageM Nat).object_list =
        pySlice (List.range 23) (((2 - 1) * ((10 : Nat) : Int)).toNat)
          (if (List.range 23).length
              ≤ (((2 : Int) - 1) * ((10 : Nat) : Int)).toNat + 10 + 5 then
            (List.range 23).length
           else (((2 : Int) - 1) * ((10 : Nat) : Int)).toNat + 10) :=
  paginator_page_bounds.1 (List.range 23) 10 5 true 2
    ⟨(List.range 23).drop 10, 2⟩
    { object_list := List.range 23, per_page := 10, orphans := 5,
      allow_empty_first_page := true, count := 23,
      numPagesCache := some 2, countCache := some 23 }
    (by decide) (by rfl)


/-- C7: `validate_number` fails with `PageNotAnInteger` on a non-coercible
input, with `EmptyPage` below `1`, and with `EmptyPage` above `num_pages`
unless the number is `1` and `allow_empty_first_page` holds (stated over the
paginator state `page()` builds, whose `count` is the collection length);
concretely, with 25 items and `per_page = 10`, `page(4)` and `page(0)` both
fail with `EmptyPage`, while page 1 of an empty collection succeeds. -/
theorem validate_number_taxonomy :
    (∀ (l : List Nat) (pp orph : Nat) (allow : Bool) (inp : PyNum),
      (pyIntCoerce inp = Option.none →
        validateNumber { paginatorInit l pp orph allow with count := l.length } inp
          = .error (.pageNotAnInteger "That page number is not an integer"))
      ∧ (∀ n : Int, pyIntCoerce inp = some n →
          (n < 1 →
            validateNumber { paginatorInit l pp orph allow with count := l.length } inp
              = .error (.emptyPage "That page number is less than 1"))
          ∧ (¬ n < 1 → ((numPagesCalc l.length orph pp allow : Int) < n) →
              ¬(n = 1 ∧ allow = true) →
              validateNumber { paginatorInit l pp orph allow with count := l.length } inp
                = .error (.emptyPage "That page contains no results"))
          ∧ (¬ n < 1 →
              (n ≤ (numPagesCalc l.length orph pp allow : Int) ∨ (n = 1 ∧ allow = true)) →
              validateNumber { paginatorInit l pp orph allow with count := l.length } inp
                = .ok (n, { paginatorInit l pp orph allow with
                            count := l.length,
                            numPagesCache := some (numPagesCalc l.length orph pp allow) }))))
    ∧ paginatorPage (paginatorInit (List.range 25) 10 0 true) (.ofInt 4)
        = .error (.emptyPage "That page contains no results")
    ∧ paginatorPage (paginatorInit (List.range 25) 10 0 true) (.ofInt 0)
        = .error (.emptyPage "That page number is less than 1")
    ∧ numPagesCalc 25 0 10 true = 3
    ∧ paginatorPage (paginatorInit ([] : List Nat) 10 0 true) (.ofInt 1)
        = .ok (⟨[], 1⟩,
          { object_list := [], per_page := 10, orphans := 0,
            allow_empty_first_page := true, count := 0,
            numPagesCache := some 1, countCache := some 0 }) := by
  refine ⟨?_, by rfl, by rfl, rfl, by rfl⟩
  intro l pp orph allow inp
  refine ⟨fun hc => ?_,
    fun n hc => ⟨fun hlt => ?_, fun hge hgt hne => ?_, fun hge hle => ?_⟩⟩
  · simp [validateNumber, hc]
  · simp [validateNumber, hc, hlt]
  · have hb : (decide (n = 1) && allow) = false := by
      rcases Bool.eq_false_or_eq_true allow with ha | ha
      · have h1 : ¬ n = 1 := fun he => hne ⟨he, ha⟩
        simp [h1]
      · simp [ha]
    simp [validateNumber, hc, hge, paginatorNumPages, paginatorInit,
      hgt, hb]
  · rcases hle with hle | ⟨h1, ha⟩
    · have hngt : ¬ ((numPagesCalc l.length orph pp allow : Int) < n) :=
        not_lt.mpr hle
      simp [validateNumber, hc, hge, paginatorNumPages, paginatorInit, hngt]
    · subst h1
      by_cases hnp : ((numPagesCalc l.length orph pp allow : Int) < 1) <;>
        simp [validateNumber, hc, hge, paginatorNumPages, paginatorInit,
          hnp, ha]

/-- Witness for C7: the general taxonomy applied at 25 items with
`per_page = 10` and the out-of-range page number 4. -/
theorem validate_number_taxonomy_witness :
    validateNumber
        { paginatorInit (List.range 25) 10 0 true with
            count := (List.range 25).length } (.ofInt 4)
      = .error (.emptyPage "That page contains no results") :=
  ((validate_number_taxonomy.1 (List.range 25) 10 0 true (.ofInt 4)).2 4
      rfl).2.1 (by decide) (by decide) (by decide)

end Aiorest
